import Mathlib

/-!
Verification of the barcode lookup component (src/src/components/BarcodeSearch.tsx).

The component is a single view: it reads a barcode string, issues one HTTP GET
against a fixed endpoint and renders the returned products as cards. We embed
its data model (interfaces PriceTier, Product, ApiResponse), its event handler
searchProducts, its currency formatter formatPrice, and the per-product card
rendering as pure Lean functions. The effects of one invocation (state updates,
toast notifications, the issued request URL) are collected in a result record;
the outcome of the awaited fetch is passed in explicitly as a value of an
outcome type, covering resolved responses of any status, JSON parse failures
and rejected fetches.
-/

namespace BarcodeBliss

/-- Embeds interface PriceTier: qty and price fields. Monetary values are
modelled as integers (IDR amounts); quantities as integers. -/
structure PriceTier where
  qty : Int
  price : Int
deriving Repr, DecidableEq

/-- Embeds interface Product. The optional field selling_price_2 is an
Option; price_tiers is an Option list (the field may be absent). -/
structure Product where
  id : Nat
  name : String
  sku : String
  barcode : String
  cogs : Int
  selling_price : Int
  selling_price_2 : Option Int
  stock : Nat
  price_tiers : Option (List PriceTier)
deriving Repr, DecidableEq

/-- Embeds interface ApiResponse. The products field is an Option because the
handler guards on its truthiness (data.products may be absent or null at
runtime even though the TS type declares it). -/
structure ApiResponse where
  status : String
  products : Option (List Product)
deriving Repr, DecidableEq

/-- The component state touched by searchProducts: the barcode input, the
product list, the loading flag and the inline error message. -/
structure SearchState where
  barcode : String
  products : List Product
  loading : Bool
  error : String
deriving Repr, DecidableEq

/-- A toast notification as passed to the toast hook: title, description and
whether the destructive variant was requested. -/
structure Toast where
  title : String
  description : String
  destructive : Bool
deriving Repr, DecidableEq

/-- Outcome of reading the response body: response.json() either rejects
(parse failure, carrying the thrown error message when it is an Error) or
yields a parsed ApiResponse value. -/
inductive BodyOutcome where
  | parseError (msg : Option String)
  | parsed (data : ApiResponse)
deriving Repr, DecidableEq

/-- Outcome of the awaited fetch: either the promise rejects (network error,
carrying the thrown error message when it is an Error), or a response arrives
with a numeric status and a body outcome (the body is only consulted when the
status is a success status). -/
inductive FetchOutcome where
  | networkError (msg : Option String)
  | response (status : Nat) (body : BodyOutcome)
deriving Repr, DecidableEq

/-- Everything one invocation of searchProducts produces: the component state
afterwards, the toasts raised in order, and the requested URL (none when no
network request was issued). -/
structure StepResult where
  state : SearchState
  toasts : List Toast
  requested : Option String
deriving Repr, DecidableEq

/-- JavaScript String.prototype.trim, modelled on the character list: strip
whitespace from both ends. -/
def jsTrim (s : String) : String :=
  String.mk (((s.data.dropWhile Char.isWhitespace).reverse.dropWhile
    Char.isWhitespace).reverse)

/-- Hexadecimal digit character, uppercase, as produced by percent-encoding. -/
def hexChar (n : Nat) : Char :=
  if n < 10 then Char.ofNat (48 + n) else Char.ofNat (55 + n)

/-- Bytes left unescaped by encodeURIComponent: ASCII letters, digits and
- _ . ! ~ * apostrophe ( ) . -/
def isUnreservedByte (n : Nat) : Bool :=
  (65 ≤ n && n ≤ 90) || (97 ≤ n && n ≤ 122) || (48 ≤ n && n ≤ 57) ||
    n == 45 || n == 95 || n == 46 || n == 33 || n == 126 || n == 42 ||
    n == 39 || n == 40 || n == 41
/-- JavaScript encodeURIComponent: percent-encodes every UTF-8 byte outside
the unreserved set, with uppercase hex digits. -/
def encodeURIComponent (s : String) : String :=
  String.mk (s.toUTF8.toList.foldr
    (fun b acc =>
      let n := b.toNat
      if isUnreservedByte n then Char.ofNat n :: acc
      else '%' :: hexChar (n / 16) :: hexChar (n % 16) :: acc)
    [])

/-- The fixed endpoint prefix of the GET request issued by searchProducts. -/
def endpointPrefix : String :=
  "https://hw.blicyber.web.id/admin/products/barcode?barcode="

/-- The toast raised when the trimmed barcode is empty. -/
def emptyBarcodeToast : Toast :=
  { title := "Please enter a barcode"
  , description := "Enter a product barcode to search"
  , destructive := true }

/-- The inline message set when the response carries no products. -/
def noProductsMsg : String := "No products found for this barcode"

/-- The fallback error message used when the caught value is not an Error. -/
def fallbackErrorMsg : String := "Failed to fetch products"

/-- The message of the Error thrown on a non-success HTTP status. -/
def httpErrorMsg (status : Nat) : String :=
  "HTTP error! status: " ++ toString status

/-- response.ok per the fetch specification: status in the range 200-299. -/
def responseOk (status : Nat) : Bool :=
  200 ≤ status && status ≤ 299

/-- The state reset performed at the start of a search:
setLoading(true); setError(""); setProducts([]). -/
def resetForSearch (s : SearchState) : SearchState :=
  { s with loading := true, error := "", products := [] }

/-- The toast raised in the catch block. -/
def searchFailedToast (msg : String) : Toast :=
  { title := "Search failed", description := msg, destructive := true }

/-- The toast raised when products were found. -/
def productsFoundToast (n : Nat) : Toast :=
  { title := "Products found"
  , description := "Found " ++ toString n ++ " product(s)"
  , destructive := false }

/-- The toast raised when the response carries no products. -/
def noResultsToast : Toast :=
  { title := "No results", description := noProductsMsg, destructive := true }

/-- One invocation of searchProducts, given the state at entry and the outcome
of the awaited fetch. Mirrors the handler line by line: the empty-trim guard
returns before any request; otherwise the state is reset, the request is
issued with the trimmed barcode URL-encoded, the try block distinguishes a
non-ok status (thrown, then caught), a parse failure (caught), a truthy
non-empty products field and the remaining cases, and the finally block
clears the loading flag. -/
def searchProducts (s : SearchState) (f : FetchOutcome) : StepResult :=
  if jsTrim s.barcode = "" then
    { state := s, toasts := [emptyBarcodeToast], requested := none }
  else
    let s1 := resetForSearch s
    let url := endpointPrefix ++ encodeURIComponent (jsTrim s.barcode)
    let caught : Option String → SearchState × List Toast := fun m =>
      let msg := m.getD fallbackErrorMsg
      ({ s1 with error := msg }, [searchFailedToast msg])
    let step : SearchState × List Toast :=
      match f with
      | .networkError m => caught m
      | .response status body =>
        if !responseOk status then
          caught (some (httpErrorMsg status))
        else
          match body with
          | .parseError m => caught m
          | .parsed data =>
            match data.products with
            | some ps =>
              if ps.length > 0 then
                ({ s1 with products := ps }, [productsFoundToast ps.length])
              else
                ({ s1 with error := noProductsMsg }, [noResultsToast])
            | none =>
              ({ s1 with error := noProductsMsg }, [noResultsToast])
    { state := { step.1 with loading := false }
    , toasts := step.2
    , requested := some url }

/-- Decimal digit character: 48 is the code of the zero digit. -/
def digitChar10 (d : Nat) : Char :=
  Char.ofNat (48 + d)

/-- Most-significant-first decimal digits of n, with explicit fuel (n itself
is always enough fuel since a number has at most as many digits as its
value once positive). Yields [] for 0. -/
def natDigitsAux : Nat → Nat → List Char
  | 0, _ => []
  | fuel + 1, n =>
    if n = 0 then []
    else natDigitsAux fuel (n / 10) ++ [digitChar10 (n % 10)]

/-- Most-significant-first decimal digits of n; 0 prints as the single zero
digit. -/
def natDigits (n : Nat) : List Char :=
  if n = 0 then [digitChar10 0] else natDigitsAux n n

/-- Insert the id-ID grouping separator (the full-stop character) after every
three characters of a least-significant-first digit list; fuelled for
structural recursion. -/
def groupRevAux : Nat → List Char → List Char
  | 0, cs => cs
  | fuel + 1, cs =>
    if cs.length ≤ 3 then cs
    else cs.take 3 ++ '.' :: groupRevAux fuel (cs.drop 3)

/-- Group a most-significant-first digit list into thousands with the id-ID
separator. -/
def groupThousands (ds : List Char) : List Char :=
  (groupRevAux ds.length ds.reverse).reverse

/-- The rounding step of Intl.NumberFormat for this call: with
minimumFractionDigits 0 and the IDR currency (2 currency digits per CLDR),
the resolved maximumFractionDigits is max(0, 2) = 2, so the value is rounded
to 2 fraction digits with the default halfExpand mode (ties away from zero).
Returns the rounded value scaled by 100, computed on the numerator and
denominator of the rational input. -/
def currencyRound (q : ℚ) : Int :=
  let a := (q.num * 100).natAbs
  let dd := q.den
  let r := (2 * a + dd) / (2 * dd)
  if q.num < 0 then -(r : Int) else (r : Int)

/-- The fraction part rendered for a scaled fraction f < 100: the id-ID
decimal separator (the comma) followed by the fraction digits, with trailing
zeros cut down to minimumFractionDigits 0 — so an integral value renders no
fraction part at all. -/
def fracDigitsIDR (f : Nat) : List Char :=
  if f = 0 then []
  else if f % 10 = 0 then [',', digitChar10 (f / 10)]
  else [',', digitChar10 (f / 10), digitChar10 (f % 10)]

/-- Embeds formatPrice: Intl.NumberFormat with the id-ID locale, IDR currency
and minimumFractionDigits 0, on rational inputs (JS numbers are modelled as
rationals, which cover every finite double). Produces a leading minus sign
for negative amounts, the Rp prefix, the integer digits grouped in thousands
by the full-stop separator, and the fraction part of the value rounded to the
resolved maximumFractionDigits of 2, with trailing zeros stripped down to the
minimum of 0 (so integer-valued amounts have no decimal portion, while
fractional amounts keep up to two digits after the comma). -/
def formatPrice (price : ℚ) : String :=
  let a := (currencyRound price).natAbs
  String.mk ((if price < 0 then ['-'] else []) ++
    ['R', 'p', ' '] ++ groupThousands (natDigits (a / 100)) ++
    fracDigitsIDR (a % 100))

/-- Everything the card of one product renders that the specification speaks
about: the title, SKU and barcode texts, the three formatted currency fields
(the secondary one only when rendered), the stock line with the class of its
conditional style, the individually rendered price tiers and the count N of
the aggregate more-tiers indicator (none when the indicator is absent). -/
structure ProductCard where
  title : String
  skuText : String
  barcodeText : String
  cogsText : String
  sellingPriceText : String
  price2Text : Option String
  stockText : String
  stockClass : String
  tiersShown : List PriceTier
  moreTiers : Option Nat
deriving Repr, DecidableEq

/-- The price-tiers section of a card: rendered only when price_tiers is
present and non-empty; it shows price_tiers.slice(0, 3) individually, and the
more-tiers indicator exactly when price_tiers.length > 3, with count
price_tiers.length - 3. -/
def renderTierSection (p : Product) : List PriceTier × Option Nat :=
  match p.price_tiers with
  | some ts =>
    if ts.length > 0 then
      (ts.take 3, if ts.length > 3 then some (ts.length - 3) else none)
    else ([], none)
  | none => ([], none)

/-- The card rendered for one product. The secondary price row is guarded by
the truthiness of selling_price_2 (absent or zero renders no row); the stock
span carries the destructive class exactly when stock === 0, the green class
otherwise. -/
def renderProductCard (p : Product) : ProductCard :=
  let tiers := renderTierSection p
  { title := p.name
  , skuText := "SKU: " ++ p.sku
  , barcodeText := p.barcode
  , cogsText := formatPrice ((p.cogs : ℚ))
  , sellingPriceText := formatPrice ((p.selling_price : ℚ))
  , price2Text :=
      match p.selling_price_2 with
      | some v => if v ≠ 0 then some (formatPrice ((v : ℚ))) else none
      | none => none
  , stockText := toString p.stock ++ " units"
  , stockClass := if p.stock = 0 then "text-destructive" else "text-green-600"
  , tiersShown := tiers.1
  , moreTiers := tiers.2 }

/-- The list of cards rendered for the current product list, in order; the
grid itself is only rendered when the list is non-empty, which renders no
cards either way when it is empty. -/
def renderProducts (ps : List Product) : List ProductCard :=
  ps.map renderProductCard

/-- One string occurs inside another as a contiguous substring. -/
def containsSubstring (s sub : String) : Prop :=
  ∃ a b : String, s = a ++ sub ++ b

/-- A concrete price-tier list with five tiers, for witnesses. -/
def sampleTiers : List PriceTier :=
  [⟨6, 45000⟩, ⟨12, 43000⟩, ⟨24, 41000⟩, ⟨48, 40000⟩, ⟨96, 39000⟩]

/-- A concrete product, for witnesses. -/
def sampleProduct : Product :=
  { id := 1
  , name := "Bir Bintang"
  , sku := "SKU-1"
  , barcode := "8991234567"
  , cogs := 40000
  , selling_price := 50000
  , selling_price_2 := some 48000
  , stock := 10
  , price_tiers := some sampleTiers }

/-- A concrete product whose selling_price_2 is present but zero. -/
def zeroPrice2Product : Product :=
  { id := 2
  , name := "Zero"
  , sku := "SKU-2"
  , barcode := "8990000000"
  , cogs := 1000
  , selling_price := 2000
  , selling_price_2 := some 0
  , stock := 0
  , price_tiers := none }

/-- A concrete state whose barcode trims to something non-empty and which
carries a prior error, for witnesses. -/
def sampleState : SearchState :=
  { barcode := " 8991234567 "
  , products := []
  , loading := false
  , error := "previous error" }

/-- A concrete state whose barcode is all whitespace, for witnesses. -/
def blankState : SearchState :=
  { barcode := "   "
  , products := [sampleProduct]
  , loading := false
  , error := "previous error" }

lemma responseOk_true {status : Nat} (h2 : 200 ≤ status) (h3 : status ≤ 299) :
    responseOk status = true := by
  simp only [responseOk, Bool.and_eq_true, decide_eq_true_eq]
  exact ⟨h2, h3⟩

lemma responseOk_false {status : Nat} (h : ¬(200 ≤ status ∧ status ≤ 299)) :
    responseOk status = false := by
  rw [Bool.eq_false_iff]
  intro hT
  exact h (by simpa [responseOk, Bool.and_eq_true, decide_eq_true_eq] using hT)

/-- Claim C1: for every response with a 2xx status whose body parses to an
object with a non-empty products array, searchProducts (entered with a
non-blank barcode) sets the displayed product list to exactly the returned
entries in the returned order and sets the error message to the empty string,
clearing any prior error. -/
theorem searchProducts_success_populates_list
    (s : SearchState) (st : String) (ps : List Product) (status : Nat)
    (h1 : jsTrim s.barcode ≠ "") (h2 : 200 ≤ status) (h3 : status ≤ 299)
    (h4 : ps ≠ []) :
    (searchProducts s (.response status (.parsed ⟨st, some ps⟩))).state.products = ps ∧
    (searchProducts s (.response status (.parsed ⟨st, some ps⟩))).state.error = "" := by
  have hok := responseOk_true h2 h3
  have hlen : ps.length > 0 := List.length_pos.mpr h4
  simp [searchProducts, h1, hok, hlen, resetForSearch]

/-- Claim C1 witness at a concrete state and response. -/
theorem searchProducts_success_populates_list_witness :
    jsTrim sampleState.barcode ≠ "" ∧ 200 ≤ 200 ∧ 200 ≤ 299 ∧
      ([sampleProduct] : List Product) ≠ [] ∧
    ((searchProducts sampleState
        (.response 200 (.parsed ⟨"success", some [sampleProduct]⟩))).state.products
        = [sampleProduct] ∧
     (searchProducts sampleState
        (.response 200 (.parsed ⟨"success", some [sampleProduct]⟩))).state.error
        = "") :=
  ⟨by decide, by decide, by decide, by decide,
    searchProducts_success_populates_list sampleState ("success") [sampleProduct] 200
      (by decide) (by decide) (by decide) (by decide)⟩

/-- Claim C2: for every input barcode that is empty after trimming
(all-whitespace included), searchProducts raises the validation warning toast
and returns with no request issued and the state entirely unchanged. -/
theorem searchProducts_blank_barcode_no_request
    (s : SearchState) (f : FetchOutcome) (h : jsTrim s.barcode = "") :
    searchProducts s f =
      { state := s, toasts := [emptyBarcodeToast], requested := none } := by
  simp [searchProducts, h]

/-- Claim C2 witness: an all-whitespace barcode with an arbitrary fetch
outcome. -/
theorem searchProducts_blank_barcode_no_request_witness :
    jsTrim blankState.barcode = "" ∧
    searchProducts blankState (.networkError none) =
      { state := blankState, toasts := [emptyBarcodeToast], requested := none } :=
  ⟨by decide,
    searchProducts_blank_barcode_no_request blankState (.networkError none) (by decide)⟩

/-- Claim C3: for every response whose status is outside the 2xx range,
searchProducts (entered with a non-blank barcode) ends with the product list
empty and an error message that contains the numeric status code (it is
exactly the HTTP error message built from the status). -/
theorem searchProducts_non2xx_error_state
    (s : SearchState) (status : Nat) (body : BodyOutcome)
    (h1 : jsTrim s.barcode ≠ "") (h2 : ¬(200 ≤ status ∧ status ≤ 299)) :
    (searchProducts s (.response status body)).state.products = [] ∧
    (searchProducts s (.response status body)).state.error = httpErrorMsg status ∧
    containsSubstring (searchProducts s (.response status body)).state.error
      (toString status) := by
  have hok := responseOk_false h2
  refine ⟨?_, ?_, ?_⟩
  · simp [searchProducts, h1, hok, resetForSearch]
  · simp [searchProducts, h1, hok, resetForSearch]
  · refine ⟨"HTTP error! status: ", "", ?_⟩
    simp [searchProducts, h1, hok, resetForSearch, httpErrorMsg]

/-- Claim C3 witness at status 404. -/
theorem searchProducts_non2xx_error_state_witness :
    jsTrim sampleState.barcode ≠ "" ∧ ¬(200 ≤ 404 ∧ 404 ≤ 299) ∧
    ((searchProducts sampleState (.response 404 (.parseError none))).state.products = [] ∧
     (searchProducts sampleState (.response 404 (.parseError none))).state.error
       = httpErrorMsg 404 ∧
     containsSubstring
       (searchProducts sampleState (.response 404 (.parseError none))).state.error
       (toString 404)) :=
  ⟨by decide, by decide,
    searchProducts_non2xx_error_state sampleState 404 (.parseError none)
      (by decide) (by decide)⟩

/-- Claim C4: for every 2xx response whose body parses to an object whose
products field is the empty array, searchProducts leaves the product list
empty and sets the no-products-found error message. -/
theorem searchProducts_empty_products_error
    (s : SearchState) (st : String) (status : Nat)
    (h1 : jsTrim s.barcode ≠ "") (h2 : 200 ≤ status) (h3 : status ≤ 299) :
    (searchProducts s (.response status (.parsed ⟨st, some []⟩))).state.products = [] ∧
    (searchProducts s (.response status (.parsed ⟨st, some []⟩))).state.error
      = noProductsMsg := by
  have hok := responseOk_true h2 h3
  simp [searchProducts, h1, hok, resetForSearch]

/-- Claim C4 witness at a concrete state and a 200 response with an empty
products array. -/
theorem searchProducts_empty_products_error_witness :
    jsTrim sampleState.barcode ≠ "" ∧ 200 ≤ 200 ∧ 200 ≤ 299 ∧
    ((searchProducts sampleState
        (.response 200 (.parsed ⟨"success", some []⟩))).state.products = [] ∧
     (searchProducts sampleState
        (.response 200 (.parsed ⟨"success", some []⟩))).state.error = noProductsMsg) :=
  ⟨by decide, by decide, by decide,
    searchProducts_empty_products_error sampleState ("success") 200
      (by decide) (by decide) (by decide)⟩

/-- Claim C6: for every invocation with a non-blank trimmed barcode, the
start-of-search reset clears the error, empties the product list and sets the
loading flag, and the loading flag is false after searchProducts returns, for
every fetch outcome (success with results, success with empty results,
non-2xx response, thrown network or parse error). -/
theorem searchProducts_reset_and_loading_cleared
    (s : SearchState) (f : FetchOutcome) (h : jsTrim s.barcode ≠ "") :
    (resetForSearch s).error = "" ∧ (resetForSearch s).products = [] ∧
    (resetForSearch s).loading = true ∧
    (searchProducts s f).state.loading = false := by
  refine ⟨rfl, rfl, rfl, ?_⟩
  rw [searchProducts, if_neg h]

/-- Claim C6 witness at a concrete state and a network-error outcome. -/
theorem searchProducts_reset_and_loading_cleared_witness :
    jsTrim sampleState.barcode ≠ "" ∧
    ((resetForSearch sampleState).error = "" ∧
     (resetForSearch sampleState).products = [] ∧
     (resetForSearch sampleState).loading = true ∧
     (searchProducts sampleState (.networkError none)).state.loading = false) :=
  ⟨by decide,
    searchProducts_reset_and_loading_cleared sampleState (.networkError none) (by decide)⟩

/-- Claim C10: for every 2xx response whose parsed body lacks the products
field, searchProducts takes the same branch as an empty products array: the
whole result coincides with the empty-array result, the product list stays
empty and the error is the no-products-found message. -/
theorem searchProducts_missing_products_field
    (s : SearchState) (st : String) (status : Nat)
    (h1 : jsTrim s.barcode ≠ "") (h2 : 200 ≤ status) (h3 : status ≤ 299) :
    searchProducts s (.response status (.parsed ⟨st, none⟩)) =
      searchProducts s (.response status (.parsed ⟨st, some []⟩)) ∧
    (searchProducts s (.response status (.parsed ⟨st, none⟩))).state.products = [] ∧
    (searchProducts s (.response status (.parsed ⟨st, none⟩))).state.error
      = noProductsMsg := by
  have hok := responseOk_true h2 h3
  refine ⟨?_, ?_, ?_⟩ <;> simp [searchProducts, h1, hok, resetForSearch]

/-- Claim C10 witness at a concrete state and a 200 response whose body has
no products field. -/
theorem searchProducts_missing_products_field_witness :
    jsTrim sampleState.barcode ≠ "" ∧ 200 ≤ 200 ∧ 200 ≤ 299 ∧
    (searchProducts sampleState (.response 200 (.parsed ⟨"success", none⟩)) =
       searchProducts sampleState (.response 200 (.parsed ⟨"success", some []⟩)) ∧
     (searchProducts sampleState
        (.response 200 (.parsed ⟨"success", none⟩))).state.products = [] ∧
     (searchProducts sampleState
        (.response 200 (.parsed ⟨"success", none⟩))).state.error = noProductsMsg) :=
  ⟨by decide, by decide, by decide,
    searchProducts_missing_products_field sampleState ("success") 200
      (by decide) (by decide) (by decide)⟩

/-- Claim C5: for every product whose price_tiers list has length L, the card
shows individually exactly the first min(L, 3) tiers in order (the slice up
to index 3), and the aggregate more-tiers indicator is present exactly when
L > 3, with count L - 3. -/
theorem renderCard_tiers_first_three
    (p : Product) (ts : List PriceTier) (h : p.price_tiers = some ts) :
    (renderProductCard p).tiersShown = ts.take 3 ∧
    (renderProductCard p).tiersShown.length = min ts.length 3 ∧
    (renderProductCard p).moreTiers =
      (if ts.length > 3 then some (ts.length - 3) else none) := by
  cases ts with
  | nil => simp [renderProductCard, renderTierSection, h]
  | cons a l =>
    refine ⟨?_, ?_, ?_⟩
    · simp [renderProductCard, renderTierSection, h]
    · simp [renderProductCard, renderTierSection, h, List.length_take]
      omega
    · simp [renderProductCard, renderTierSection, h]

/-- Claim C5 witness: the sample product carries five tiers, of which the
first three are shown with a more-tiers count of two. -/
theorem renderCard_tiers_first_three_witness :
    sampleProduct.price_tiers = some sampleTiers ∧
    ((renderProductCard sampleProduct).tiersShown = sampleTiers.take 3 ∧
     (renderProductCard sampleProduct).tiersShown.length = min sampleTiers.length 3 ∧
     (renderProductCard sampleProduct).moreTiers =
       (if sampleTiers.length > 3 then some (sampleTiers.length - 3) else none)) :=
  ⟨rfl, renderCard_tiers_first_three sampleProduct sampleTiers rfl⟩

/-- Claim C8: the stock count carries the destructive style class exactly when
the product's stock is zero, and the green style class exactly otherwise. -/
theorem stockClass_destructive_iff_zero (p : Product) :
    ((renderProductCard p).stockClass = "text-destructive" ↔ p.stock = 0) ∧
    ((renderProductCard p).stockClass = "text-green-600" ↔ p.stock ≠ 0) := by
  by_cases h : p.stock = 0 <;> simp [renderProductCard, h]

/-- Claim C9: the secondary price row is rendered exactly when selling_price_2
is present and truthy (non-zero); in particular the product whose
selling_price_2 is 0 renders no secondary price row. -/
theorem price2_rendered_iff_truthy :
    (∀ p : Product, (renderProductCard p).price2Text.isSome = true ↔
      ∃ v, p.selling_price_2 = some v ∧ v ≠ 0) ∧
    (renderProductCard zeroPrice2Product).price2Text = none := by
  constructor
  · intro p
    rcases hp : p.selling_price_2 with _ | v
    · simp [renderProductCard, hp]
    · by_cases hv : v = 0 <;> simp [renderProductCard, hp, hv]
  · decide

lemma digitChar10_ne_comma : ∀ d : Nat, d < 10 → digitChar10 d ≠ ',' := by decide

lemma natDigitsAux_ne_comma :
    ∀ (fuel n : Nat), ∀ c ∈ natDigitsAux fuel n, c ≠ ',' := by
  intro fuel
  induction fuel with
  | zero => intro n c hc; simp [natDigitsAux] at hc
  | succ k ih =>
    intro n c hc
    simp only [natDigitsAux] at hc
    split at hc
    · simp at hc
    · rcases List.mem_append.mp hc with h | h
      · exact ih _ c h
      · have hce : c = digitChar10 (n % 10) := by simpa using h
        rw [hce]
        exact digitChar10_ne_comma _ (Nat.mod_lt n (by norm_num))

lemma natDigits_ne_comma (n : Nat) : ∀ c ∈ natDigits n, c ≠ ',' := by
  intro c hc
  rw [natDigits] at hc
  split at hc
  · have hce : c = digitChar10 0 := by simpa using hc
    rw [hce]
    exact digitChar10_ne_comma 0 (by norm_num)
  · exact natDigitsAux_ne_comma n n c hc

lemma groupRevAux_ne_comma :
    ∀ (fuel : Nat) (cs : List Char), (∀ c ∈ cs, c ≠ ',') →
      ∀ c ∈ groupRevAux fuel cs, c ≠ ',' := by
  intro fuel
  induction fuel with
  | zero => intro cs h c hc; simp only [groupRevAux] at hc; exact h c hc
  | succ k ih =>
    intro cs h c hc
    simp only [groupRevAux] at hc
    split at hc
    · exact h c hc
    · rcases List.mem_append.mp hc with h1 | h1
      · exact h c (List.mem_of_mem_take h1)
      · rcases List.mem_cons.mp h1 with h2 | h2
        · rw [h2]; decide
        · exact ih _ (fun d hd => h d (List.mem_of_mem_drop hd)) c h2

lemma currencyRound_intCast_natAbs (n : Int) :
    (currencyRound ((n : ℚ))).natAbs = 100 * n.natAbs := by
  simp only [currencyRound, Rat.num_intCast, Rat.den_intCast]
  have ha : (n * 100).natAbs = n.natAbs * 100 := by
    rw [Int.natAbs_mul]; rfl
  split <;> simp only [Int.natAbs_neg, Int.natAbs_ofNat, ha] <;> omega

lemma formatPrice_intCast (n : Int) :
    formatPrice ((n : ℚ)) = String.mk ((if (n : ℚ) < 0 then ['-'] else []) ++
      ['R', 'p', ' '] ++ groupThousands (natDigits n.natAbs)) := by
  have hdiv : 100 * n.natAbs / 100 = n.natAbs := by omega
  have hmod : 100 * n.natAbs % 100 = 0 := by omega
  simp only [formatPrice, currencyRound_intCast_natAbs, hdiv, hmod, fracDigitsIDR]
  simp

/-- Claim C7 counterexample: the fractional input 50000.5 (the rational
100001/2, an exactly representable JS number) does not format with zero
fractional digits — with minimumFractionDigits 0 the resolved
maximumFractionDigits stays at the IDR currency digits of 2, so the output is
Rp 50.000,5, which contains the id-ID decimal separator. -/
theorem formatPrice_fractional_counterexample :
    formatPrice (mkRat 100001 2) = "Rp 50.000,5" ∧
    ¬ (∀ c ∈ (formatPrice (mkRat 100001 2)).data, c ≠ ',') := by
  refine ⟨by decide, ?_⟩
  intro h
  exact h ',' (by decide) rfl

/-- Claim C7 as amended: for every integer-valued input, formatPrice renders
the amount in the fixed id-ID / IDR format with zero fractional digits —
50000 formats to the string Rp 50.000 (thousands grouped by the full stop),
and the output never contains the id-ID decimal separator, the comma.
(Fractional inputs may render up to two fraction digits.) -/
theorem formatPrice_integer_idr_zero_fraction :
    formatPrice 50000 = "Rp 50.000" ∧
    ∀ n : Int, ∀ c ∈ (formatPrice ((n : ℚ))).data, c ≠ ',' := by
  refine ⟨by decide, ?_⟩
  intro n c hc
  rw [formatPrice_intCast] at hc
  have hc2 : c ∈ (if (n : ℚ) < 0 then ['-'] else []) ++
      ['R', 'p', ' '] ++ groupThousands (natDigits n.natAbs) := hc
  rcases List.mem_append.mp hc2 with h1 | h1
  · rcases List.mem_append.mp h1 with h2 | h2
    · split at h2
      · have hce : c = '-' := by simpa using h2
        rw [hce]; decide
      · simp at h2
    · have hce : c = 'R' ∨ c = 'p' ∨ c = ' ' := by simpa using h2
      rcases hce with h | h | h <;> rw [h] <;> decide
  · have hmem := List.mem_reverse.mp h1
    exact groupRevAux_ne_comma _ _
      (fun d hd => natDigits_ne_comma _ d (List.mem_reverse.mp hd)) c hmem

end BarcodeBliss
